import Mathlib

/-!
Shallow embedding of the realtime core of the aerodb-js client library:
the connection manager (src/realtime/RealtimeClient.ts) and the channel
object (src/realtime/RealtimeChannel.ts), together with the configuration
constants (src/lib/constants.ts).

The whole system is modelled as one explicit state record `Sys`.
Channel objects live in a heap (`chanObjs`, keyed by an object id) while
the registry (`channels`) maps names to object ids; this captures the
reference semantics of the original: application code can hold a
reference to a Channel object that is no longer in the registry.

Ghost fields record externally observable history: `sent` is the list of
frames actually transmitted over the socket, `closedSocks` the ids of
socket handles on which close was called by the manager, `scheduledDelays`
the reconnect delays handed to the timer facility, and `badCreations`
counts socket constructions that happened while a socket handle was still
held (the original never increments it, which is one of the claims).

External nondeterminism (a transmission over an apparently open socket
throwing, the socket constructor throwing) is modelled by two outcome
streams stored in the state and consumed one entry per attempt; an
exhausted stream means success.
-/

namespace AeroDB

/-- Connection state of the manager, from src/realtime/types.ts. -/
inductive ConnectionState
| CONNECTING
| CONNECTED
| DISCONNECTED
| RECONNECTING
deriving DecidableEq, Repr

/-- Realtime event types INSERT, UPDATE, DELETE and the wildcard star,
from src/realtime/types.ts. -/
inductive RealtimeEventType
| INSERT
| UPDATE
| DELETE
| WILDCARD
deriving DecidableEq, Repr

/-- Payload delivered to subscribers, from src/realtime/types.ts.
Record contents are abstracted to optional strings; only the type field
drives control flow. -/
structure RealtimePayload where
  type : RealtimeEventType
  table : String
  schema : String
  commit_timestamp : String
  newRecord : Option String
  oldRecord : Option String
deriving DecidableEq, Repr

/-- An application callback registered on a channel. The id identifies
the function object (JS Set identity); `throws` is its behaviour when
invoked: true means the callback raises. -/
structure Handler where
  id : Nat
  throws : Bool
deriving DecidableEq, Repr

/-- State owned by one RealtimeChannel object
(src/realtime/RealtimeChannel.ts): its immutable name, the subscribed
flag, and the handlers map from event type to an insertion-ordered,
deduplicated set of callbacks. -/
structure RealtimeChannelState where
  name : String
  subscribed : Bool
  handlers : List (RealtimeEventType × List Handler)
deriving DecidableEq, Repr

/-- Outbound wire frames, from the wire envelope in the source. -/
inductive Frame
| subscribeFrame (channel : String)
| unsubscribeFrame (channel : String)
| heartbeatFrame
deriving DecidableEq, Repr

/-- REALTIME_CONFIG.RECONNECT_DELAY_MS from src/lib/constants.ts. -/
def RECONNECT_DELAY_MS : Nat := 1000

/-- REALTIME_CONFIG.MAX_RECONNECT_DELAY_MS from src/lib/constants.ts. -/
def MAX_RECONNECT_DELAY_MS : Nat := 30000

/-- REALTIME_CONFIG.RECONNECT_BACKOFF_MULTIPLIER from src/lib/constants.ts. -/
def RECONNECT_BACKOFF_MULTIPLIER : Nat := 2

/-- REALTIME_CONFIG.HEARTBEAT_INTERVAL_MS from src/lib/constants.ts. -/
def HEARTBEAT_INTERVAL_MS : Nat := 30000

/-- Complete state of one RealtimeClient instance together with the
channel object heap and the ghost observation fields. -/
structure Sys where
  connectionState : ConnectionState
  ws : Option Nat
  nextSock : Nat
  channels : List (String × Nat)
  chanObjs : List (Nat × RealtimeChannelState)
  nextChan : Nat
  reconnectAttempts : Nat
  reconnectPending : Bool
  heartbeatOn : Bool
  messageQueue : List Frame
  sendOutcomes : List Bool
  ctorOutcomes : List Bool
  sent : List Frame
  closedSocks : List Nat
  scheduledDelays : List Nat
  badCreations : Nat
deriving DecidableEq, Repr

/-- Look up a channel object in the heap by object id. -/
def lookupChan : List (Nat × RealtimeChannelState) → Nat → Option RealtimeChannelState
| [], _ => none
| (k, v) :: rest, cid => if k = cid then some v else lookupChan rest cid

/-- Replace the channel object stored under an id (in-place update,
preserving heap order). -/
def setChan : List (Nat × RealtimeChannelState) → Nat → RealtimeChannelState →
    List (Nat × RealtimeChannelState)
| [], _, _ => []
| (k, v) :: rest, cid, ch =>
  if k = cid then (k, ch) :: rest else (k, v) :: setChan rest cid ch

/-- Registry lookup by channel name (Map.get). -/
def registryLookup : List (String × Nat) → String → Option Nat
| [], _ => none
| (n, cid) :: rest, name => if n = name then some cid else registryLookup rest name

/-- Map.get on the handlers map of a channel. -/
def handlersGet : List (RealtimeEventType × List Handler) → RealtimeEventType →
    Option (List Handler)
| [], _ => none
| (e, hs) :: rest, ev => if e = ev then some hs else handlersGet rest ev

/-- Map.set on the handlers map: update in place if the key is present,
otherwise append (JS Map insertion order). -/
def handlersSet : List (RealtimeEventType × List Handler) → RealtimeEventType →
    List Handler → List (RealtimeEventType × List Handler)
| [], ev, hs => [(ev, hs)]
| (e, old) :: rest, ev, hs =>
  if e = ev then (e, hs) :: rest else (e, old) :: handlersSet rest ev hs

/-- Set.add on a handler set: deduplicated by function-object identity,
insertion ordered. -/
def setAdd (set : List Handler) (h : Handler) : List Handler :=
  if set.any (fun x => x.id = h.id) then set else set ++ [h]

/-- RealtimeClient.sendMessage: if the state is not CONNECTED or there is
no socket handle, push the frame on the message queue; otherwise try to
transmit it, falling back to the queue if the transmission throws.
Transmission outcomes are read off the sendOutcomes stream (empty stream
means success). -/
def sendMessage (m : Frame) (s : Sys) : Sys :=
  if s.connectionState ≠ ConnectionState.CONNECTED ∨ s.ws = none then
    { s with messageQueue := s.messageQueue ++ [m] }
  else if s.sendOutcomes.headD true then
    { s with sent := s.sent ++ [m], sendOutcomes := s.sendOutcomes.tail }
  else
    { s with messageQueue := s.messageQueue ++ [m], sendOutcomes := s.sendOutcomes.tail }

/-- Backoff delay used by RealtimeClient.scheduleReconnect:
min of RECONNECT_DELAY_MS times the multiplier to the attempt power,
and MAX_RECONNECT_DELAY_MS. -/
def reconnectDelay (attempt : Nat) : Nat :=
  min (RECONNECT_DELAY_MS * RECONNECT_BACKOFF_MULTIPLIER ^ attempt) MAX_RECONNECT_DELAY_MS

/-- RealtimeClient.scheduleReconnect: if a reconnect timer is already
pending do nothing; otherwise compute the delay from the current attempt
counter and arm the timer (the armed delay is recorded in the ghost
trace scheduledDelays). -/
def scheduleReconnect (s : Sys) : Sys :=
  if s.reconnectPending then s
  else
    { s with reconnectPending := true,
             scheduledDelays := s.scheduledDelays ++ [reconnectDelay s.reconnectAttempts] }

/-- RealtimeClient.handleDisconnect: stop the heartbeat, drop the socket
handle, and when the state was not DISCONNECTED move to RECONNECTING and
schedule a reconnect. -/
def handleDisconnect (s : Sys) : Sys :=
  if s.connectionState ≠ ConnectionState.DISCONNECTED then
    scheduleReconnect
      { s with heartbeatOn := false, ws := none,
               connectionState := ConnectionState.RECONNECTING }
  else
    { s with heartbeatOn := false, ws := none }

/-- RealtimeClient.connect: no-op when already CONNECTED or CONNECTING;
otherwise set state to CONNECTING and construct a new socket (the URL
building with apikey and token query parameters does not affect the
state machine and is elided). A constructor outcome of false models the
constructor throwing, which routes into handleDisconnect. The ghost
counter badCreations records any construction performed while a socket
handle was still held. -/
def connect (s : Sys) : Sys :=
  if s.connectionState = ConnectionState.CONNECTED ∨
     s.connectionState = ConnectionState.CONNECTING then s
  else if s.ctorOutcomes.headD true then
    { s with connectionState := ConnectionState.CONNECTING,
             ctorOutcomes := s.ctorOutcomes.tail,
             ws := some s.nextSock,
             nextSock := s.nextSock + 1,
             badCreations :=
               if s.ws = none then s.badCreations else s.badCreations + 1 }
  else
    handleDisconnect
      { s with connectionState := ConnectionState.CONNECTING,
               ctorOutcomes := s.ctorOutcomes.tail }

/-- RealtimeClient.disconnect: stop heartbeat and reconnect timer, close
the physical socket if one is held (recording the closed handle in the
ghost trace), set state to DISCONNECTED, clear the channel registry and
empty the message queue. Channel objects in the heap are not touched. -/
def disconnect (s : Sys) : Sys :=
  match s.ws with
  | some k =>
    { s with heartbeatOn := false, reconnectPending := false,
             closedSocks := s.closedSocks ++ [k], ws := none,
             connectionState := ConnectionState.DISCONNECTED,
             channels := [], messageQueue := [] }
  | none =>
    { s with heartbeatOn := false, reconnectPending := false,
             connectionState := ConnectionState.DISCONNECTED,
             channels := [], messageQueue := [] }

/-- Helper for flushMessageQueue: send each frame of the snapshot in
order through sendMessage. -/
def sendAll : List Frame → Sys → Sys
| [], s => s
| m :: rest, s => sendAll rest (sendMessage m s)

/-- RealtimeClient.flushMessageQueue: snapshot the queue, empty it, then
send every snapshotted frame in order. -/
def flushMessageQueue (s : Sys) : Sys :=
  sendAll s.messageQueue { s with messageQueue := [] }

/-- Helper for resubscribeChannels: walk the registry entries in
insertion order and emit a subscribe frame for every channel whose
subscribed flag is set. -/
def resubscribeList : List (String × Nat) → Sys → Sys
| [], s => s
| (_, cid) :: rest, s =>
  let s1 :=
    match lookupChan s.chanObjs cid with
    | some ch => if ch.subscribed then sendMessage (Frame.subscribeFrame ch.name) s else s
    | none => s
  resubscribeList rest s1

/-- RealtimeClient.resubscribeChannels. -/
def resubscribeChannels (s : Sys) : Sys :=
  resubscribeList s.channels s

/-- The onopen callback installed by setupWebSocket: set state to
CONNECTED, reset the attempt counter, start the heartbeat, flush the
queue and resubscribe all subscribed channels. -/
def onOpen (s : Sys) : Sys :=
  resubscribeChannels (flushMessageQueue
    { s with connectionState := ConnectionState.CONNECTED,
             reconnectAttempts := 0,
             heartbeatOn := true })

/-- The onclose callback installed by setupWebSocket. -/
def onClose (s : Sys) : Sys :=
  handleDisconnect s

/-- The onerror callback installed by setupWebSocket: a no-op (the error
is always followed by a close). -/
def onError (s : Sys) : Sys :=
  s

/-- Firing of the reconnect timer: clear the pending marker, increment
the attempt counter, call connect. Guarded on a timer actually pending. -/
def reconnectTimerFires (s : Sys) : Sys :=
  if s.reconnectPending then
    connect { s with reconnectPending := false,
                     reconnectAttempts := s.reconnectAttempts + 1 }
  else s

/-- Firing of the heartbeat interval: send a heartbeat frame through the
ordinary send path. Guarded on the heartbeat being active. -/
def heartbeatTimerFires (s : Sys) : Sys :=
  if s.heartbeatOn then sendMessage Frame.heartbeatFrame s else s

/-- RealtimeClient.handleChannelSubscribe: lazily connect when the state
is DISCONNECTED. -/
def handleChannelSubscribe (s : Sys) : Sys :=
  if s.connectionState = ConnectionState.DISCONNECTED then connect s else s

/-- RealtimeClient.handleChannelUnsubscribe: delete the registry entry
for the channel name, then disconnect when no subscribed channel remains
and the registry is empty. -/
def handleChannelUnsubscribe (chName : String) (s : Sys) : Sys :=
  let s1 := { s with channels := s.channels.filter (fun e => e.1 ≠ chName) }
  let hasSubscribed := s1.channels.any (fun e =>
    match lookupChan s1.chanObjs e.2 with
    | some ch => ch.subscribed
    | none => false)
  if ¬hasSubscribed = true ∧ s1.channels.length = 0 then disconnect s1 else s1

/-- RealtimeClient.channel: return the registered channel object id for
the name if present; otherwise allocate a fresh channel object (not
subscribed, no handlers), register it and return its id. -/
def channelOp (name : String) (s : Sys) : Sys × Nat :=
  match registryLookup s.channels name with
  | some cid => (s, cid)
  | none =>
    let cid := s.nextChan
    let ch : RealtimeChannelState := { name := name, subscribed := false, handlers := [] }
    ({ s with channels := s.channels ++ [(name, cid)],
              chanObjs := s.chanObjs ++ [(cid, ch)],
              nextChan := cid + 1 }, cid)

/-- RealtimeChannel.on, acting on the channel object with the given id:
create the event entry if missing, then Set.add the callback. -/
def chanOn (cid : Nat) (ev : RealtimeEventType) (h : Handler) (s : Sys) : Sys :=
  match lookupChan s.chanObjs cid with
  | none => s
  | some ch =>
    let cur := (handlersGet ch.handlers ev).getD []
    let ch2 := { ch with handlers := handlersSet ch.handlers ev (setAdd cur h) }
    { s with chanObjs := setChan s.chanObjs cid ch2 }

/-- RealtimeChannel.subscribe, acting on the channel object with the
given id: return unchanged when already subscribed; otherwise emit a
subscribe frame through the send path, set the subscribed flag and
notify the manager (handleChannelSubscribe). -/
def chanSubscribe (cid : Nat) (s : Sys) : Sys :=
  match lookupChan s.chanObjs cid with
  | none => s
  | some ch =>
    if ch.subscribed then s
    else
      let s1 := sendMessage (Frame.subscribeFrame ch.name) s
      let s2 := { s1 with chanObjs := setChan s1.chanObjs cid { ch with subscribed := true } }
      handleChannelSubscribe s2

/-- RealtimeChannel.unsubscribe, acting on the channel object with the
given id: return unchanged when not subscribed; otherwise emit an
unsubscribe frame, clear the subscribed flag and all handlers, and
notify the manager (handleChannelUnsubscribe). -/
def chanUnsubscribe (cid : Nat) (s : Sys) : Sys :=
  match lookupChan s.chanObjs cid with
  | none => s
  | some ch =>
    if ¬ch.subscribed = true then s
    else
      let s1 := sendMessage (Frame.unsubscribeFrame ch.name) s
      let ch2 := { ch with subscribed := false, handlers := ([] : List (RealtimeEventType × List Handler)) }
      let s2 := { s1 with chanObjs := setChan s1.chanObjs cid ch2 }
      handleChannelUnsubscribe ch.name s2

/-- Invocation of one application callback: the callback either returns
normally or raises. -/
def invokeHandler (h : Handler) : Except Unit Unit :=
  if h.throws then Except.error () else Except.ok ()

/-- One dispatch loop over a handler set, as in RealtimeChannel.dispatch:
each callback is invoked inside a try block whose catch discards the
error, so the loop continues regardless of the outcome. Returns the ids
of the callbacks that were invoked, in order. -/
def runHandlerLoop : List Handler → List Nat
| [] => []
| h :: rest =>
  match invokeHandler h with
  | Except.ok _ => h.id :: runHandlerLoop rest
  | Except.error _ => h.id :: runHandlerLoop rest

/-- RealtimeChannel.dispatch: invoke the handlers registered for the
payload type, then the wildcard handlers, each loop isolating callback
errors. Returns the ids of all invoked callbacks in invocation order. -/
def dispatch (ch : RealtimeChannelState) (p : RealtimePayload) : List Nat :=
  let eventCalls :=
    match handlersGet ch.handlers p.type with
    | some hs => runHandlerLoop hs
    | none => []
  let wildcardCalls :=
    match handlersGet ch.handlers RealtimeEventType.WILDCARD with
    | some hs => runHandlerLoop hs
    | none => []
  eventCalls ++ wildcardCalls

/-- Initial state of a freshly constructed RealtimeClient, parametrised
by the two external outcome streams. -/
def initSys (sends ctors : List Bool) : Sys :=
  { connectionState := ConnectionState.DISCONNECTED
    ws := none
    nextSock := 0
    channels := []
    chanObjs := []
    nextChan := 0
    reconnectAttempts := 0
    reconnectPending := false
    heartbeatOn := false
    messageQueue := []
    sendOutcomes := sends
    ctorOutcomes := ctors
    sent := []
    closedSocks := []
    scheduledDelays := []
    badCreations := 0 }

/-- Externally triggerable steps of the system: application API calls,
transport events and timer firings. -/
inductive Action
| getChannel (name : String)
| subscribeCall (cid : Nat)
| unsubscribeCall (cid : Nat)
| onCall (cid : Nat) (ev : RealtimeEventType) (h : Handler)
| connectCall
| disconnectCall
| wsOpen
| wsClose
| wsError
| reconnectFire
| heartbeatFire

/-- Interpretation of one action as a state transformer. -/
def doAction : Action → Sys → Sys
| Action.getChannel name, s => (channelOp name s).1
| Action.subscribeCall cid, s => chanSubscribe cid s
| Action.unsubscribeCall cid, s => chanUnsubscribe cid s
| Action.onCall cid ev h, s => chanOn cid ev h s
| Action.connectCall, s => connect s
| Action.disconnectCall, s => disconnect s
| Action.wsOpen, s => onOpen s
| Action.wsClose, s => onClose s
| Action.wsError, s => onError s
| Action.reconnectFire, s => reconnectTimerFires s
| Action.heartbeatFire, s => heartbeatTimerFires s

/-- Run a list of actions from a state, left to right. -/
def run (acts : List Action) (s : Sys) : Sys :=
  acts.foldl (fun t a => doAction a t) s

/-- Two states agree on every field except the pure send-path fields
messageQueue, sent and sendOutcomes. Operations that only move frames
around relate a state to their result by this relation. -/
def SendOnly (s t : Sys) : Prop :=
  t.connectionState = s.connectionState ∧ t.ws = s.ws ∧ t.nextSock = s.nextSock ∧
  t.channels = s.channels ∧ t.chanObjs = s.chanObjs ∧ t.nextChan = s.nextChan ∧
  t.reconnectAttempts = s.reconnectAttempts ∧ t.reconnectPending = s.reconnectPending ∧
  t.heartbeatOn = s.heartbeatOn ∧ t.closedSocks = s.closedSocks ∧
  t.scheduledDelays = s.scheduledDelays ∧ t.badCreations = s.badCreations

/-- Socket-handle invariant: whenever the state is neither CONNECTED nor
CONNECTING the manager holds no socket handle, and no socket was ever
constructed while a handle was still held. -/
def GoodSock (s : Sys) : Prop :=
  (s.connectionState = ConnectionState.CONNECTED ∨
   s.connectionState = ConnectionState.CONNECTING ∨ s.ws = none) ∧
  s.badCreations = 0

/-- Modelled from the WebSocket platform contract consumed by the
source: once close has been called on a socket that is still
establishing, the socket can deliver error and close events but never an
open event. These are the completion callbacks that can still arrive
after disconnect was called while CONNECTING. -/
def PossibleAfterClientClose (a : Action) : Prop :=
  a = Action.wsClose ∨ a = Action.wsError

/-- Fresh client with channel object 0 registered under name a. -/
def chanA0 : Sys := (channelOp "a" (initSys [] [])).1

/-- Lazy-connect scenario: subscribe called once while DISCONNECTED. -/
def lazySub : Sys := chanSubscribe 0 chanA0

/-- Lazy-connect scenario: subscribe called twice in succession. -/
def lazySubTwice : Sys := chanSubscribe 0 lazySub

/-- Lazy-connect scenario after the socket open event fires. -/
def lazyOpened : Sys := onOpen lazySubTwice

/-- A client on which a handler was registered and subscribe called,
then disconnect. -/
def demoAfterDisconnect : Sys :=
  disconnect (chanSubscribe 0 (chanOn 0 RealtimeEventType.INSERT ⟨0, false⟩ chanA0))

/-- A connected client whose registry holds exactly the subscribed
channel a. -/
def connectedOne : Sys := onOpen (chanSubscribe 0 chanA0)

/-- A connected client with an empty queue and empty traces. -/
def sampleConnected : Sys :=
  { initSys [] [] with connectionState := ConnectionState.CONNECTED, ws := some 0 }

/-- A connected client with three frames waiting in the queue. -/
def queuedThree : Sys :=
  { sampleConnected with
      messageQueue := [Frame.subscribeFrame "x", Frame.heartbeatFrame,
                       Frame.unsubscribeFrame "y"] }

lemma sendOnly_refl (s : Sys) : SendOnly s s := by
  unfold SendOnly
  exact ⟨rfl, rfl, rfl, rfl, rfl, rfl, rfl, rfl, rfl, rfl, rfl, rfl⟩

lemma sendOnly_trans {s t u : Sys} (h1 : SendOnly s t) (h2 : SendOnly t u) :
    SendOnly s u := by
  unfold SendOnly at h1 h2 ⊢
  obtain ⟨a1, a2, a3, a4, a5, a6, a7, a8, a9, a10, a11, a12⟩ := h1
  obtain ⟨b1, b2, b3, b4, b5, b6, b7, b8, b9, b10, b11, b12⟩ := h2
  refine ⟨?_, ?_, ?_, ?_, ?_, ?_, ?_, ?_, ?_, ?_, ?_, ?_⟩ <;> simp_all

lemma sendMessage_sendOnly (m : Frame) (s : Sys) : SendOnly s (sendMessage m s) := by
  unfold sendMessage SendOnly
  split
  · exact ⟨rfl, rfl, rfl, rfl, rfl, rfl, rfl, rfl, rfl, rfl, rfl, rfl⟩
  · split
    · exact ⟨rfl, rfl, rfl, rfl, rfl, rfl, rfl, rfl, rfl, rfl, rfl, rfl⟩
    · exact ⟨rfl, rfl, rfl, rfl, rfl, rfl, rfl, rfl, rfl, rfl, rfl, rfl⟩

lemma sendAll_sendOnly (ms : List Frame) (s : Sys) : SendOnly s (sendAll ms s) := by
  induction ms generalizing s with
  | nil => exact sendOnly_refl s
  | cons m rest ih =>
    exact sendOnly_trans (sendMessage_sendOnly m s) (ih (sendMessage m s))

lemma flushMessageQueue_sendOnly (s : Sys) : SendOnly s (flushMessageQueue s) := by
  unfold flushMessageQueue
  have h := sendAll_sendOnly s.messageQueue { s with messageQueue := [] }
  exact sendOnly_trans ⟨rfl, rfl, rfl, rfl, rfl, rfl, rfl, rfl, rfl, rfl, rfl, rfl⟩ h

lemma resubscribeList_sendOnly (entries : List (String × Nat)) (s : Sys) :
    SendOnly s (resubscribeList entries s) := by
  induction entries generalizing s with
  | nil => exact sendOnly_refl s
  | cons e rest ih =>
    obtain ⟨nm, cid⟩ := e
    unfold resubscribeList
    cases h : lookupChan s.chanObjs cid with
    | none => exact ih s
    | some ch =>
      by_cases hs : ch.subscribed
      · simp only [hs, if_true]
        exact sendOnly_trans (sendMessage_sendOnly _ s) (ih _)
      · simp only [hs, if_false]
        exact ih s

lemma resubscribeChannels_sendOnly (s : Sys) : SendOnly s (resubscribeChannels s) :=
  resubscribeList_sendOnly s.channels s

lemma heartbeatTimerFires_sendOnly (s : Sys) : SendOnly s (heartbeatTimerFires s) := by
  unfold heartbeatTimerFires
  split
  · exact sendMessage_sendOnly _ s
  · exact sendOnly_refl s

lemma goodSock_of_sendOnly {s t : Sys} (hg : GoodSock s) (hso : SendOnly s t) :
    GoodSock t := by
  unfold GoodSock at hg ⊢
  unfold SendOnly at hso
  obtain ⟨a1, a2, _, _, _, _, _, _, _, _, _, a12⟩ := hso
  rw [a1, a2, a12]
  exact hg

lemma scheduleReconnect_fields (s : Sys) :
    (scheduleReconnect s).connectionState = s.connectionState ∧
    (scheduleReconnect s).ws = s.ws ∧
    (scheduleReconnect s).badCreations = s.badCreations ∧
    (scheduleReconnect s).reconnectAttempts = s.reconnectAttempts := by
  unfold scheduleReconnect
  split
  · exact ⟨rfl, rfl, rfl, rfl⟩
  · exact ⟨rfl, rfl, rfl, rfl⟩

lemma handleDisconnect_fields (s : Sys) :
    (handleDisconnect s).ws = none ∧
    (handleDisconnect s).badCreations = s.badCreations ∧
    (handleDisconnect s).reconnectAttempts = s.reconnectAttempts := by
  unfold handleDisconnect
  split
  · obtain ⟨_, h2, h3, h4⟩ := scheduleReconnect_fields
      { s with heartbeatOn := false, ws := none,
               connectionState := ConnectionState.RECONNECTING }
    exact ⟨h2, h3, h4⟩
  · exact ⟨rfl, rfl, rfl⟩

lemma handleDisconnect_good {s : Sys} (h : GoodSock s) : GoodSock (handleDisconnect s) := by
  obtain ⟨h1, h2, _⟩ := handleDisconnect_fields s
  exact ⟨Or.inr (Or.inr h1), h2.trans h.2⟩

lemma connect_good {s : Sys} (h : GoodSock s) : GoodSock (connect s) := by
  unfold connect
  split
  · exact h
  · rename_i hnot
    split
    · have hws : s.ws = none := by
        rcases h.1 with h1 | h1 | h1
        · exact absurd (Or.inl h1) hnot
        · exact absurd (Or.inr h1) hnot
        · exact h1
      refine ⟨Or.inr (Or.inl rfl), ?_⟩
      show (if s.ws = none then s.badCreations else s.badCreations + 1) = 0
      rw [if_pos hws]
      exact h.2
    · exact handleDisconnect_good ⟨Or.inr (Or.inl rfl), h.2⟩

lemma disconnect_good {s : Sys} (h : GoodSock s) : GoodSock (disconnect s) := by
  unfold disconnect
  cases hw : s.ws
  · exact ⟨Or.inr (Or.inr rfl), h.2⟩
  · exact ⟨Or.inr (Or.inr rfl), h.2⟩

lemma onOpen_good {s : Sys} (h : GoodSock s) : GoodSock (onOpen s) := by
  unfold onOpen
  set t : Sys :=
    { s with connectionState := ConnectionState.CONNECTED,
             reconnectAttempts := 0, heartbeatOn := true } with ht
  have hgt : GoodSock t := ⟨Or.inl rfl, h.2⟩
  exact goodSock_of_sendOnly hgt
    (sendOnly_trans (flushMessageQueue_sendOnly t)
      (resubscribeChannels_sendOnly (flushMessageQueue t)))

lemma handleChannelSubscribe_good {s : Sys} (h : GoodSock s) :
    GoodSock (handleChannelSubscribe s) := by
  unfold handleChannelSubscribe
  split
  · exact connect_good h
  · exact h

lemma chanSubscribe_good {s : Sys} (cid : Nat) (h : GoodSock s) :
    GoodSock (chanSubscribe cid s) := by
  unfold chanSubscribe
  split
  · exact h
  · rename_i ch _
    split
    · exact h
    · have h1 : GoodSock (sendMessage (Frame.subscribeFrame ch.name) s) :=
        goodSock_of_sendOnly h (sendMessage_sendOnly _ s)
      dsimp only
      refine handleChannelSubscribe_good ⟨?_, ?_⟩
      · exact h1.1
      · exact h1.2

lemma handleChannelUnsubscribe_good {s : Sys} (chName : String) (h : GoodSock s) :
    GoodSock (handleChannelUnsubscribe chName s) := by
  unfold handleChannelUnsubscribe
  dsimp only
  split
  · exact disconnect_good ⟨h.1, h.2⟩
  · exact ⟨h.1, h.2⟩

lemma chanUnsubscribe_good {s : Sys} (cid : Nat) (h : GoodSock s) :
    GoodSock (chanUnsubscribe cid s) := by
  unfold chanUnsubscribe
  split
  · exact h
  · rename_i ch _
    split
    · exact h
    · have h1 : GoodSock (sendMessage (Frame.unsubscribeFrame ch.name) s) :=
        goodSock_of_sendOnly h (sendMessage_sendOnly _ s)
      dsimp only
      refine handleChannelUnsubscribe_good ch.name ⟨?_, ?_⟩
      · exact h1.1
      · exact h1.2

lemma chanOn_good {s : Sys} (cid : Nat) (ev : RealtimeEventType) (hd : Handler)
    (h : GoodSock s) : GoodSock (chanOn cid ev hd s) := by
  unfold chanOn
  cases hc : lookupChan s.chanObjs cid with
  | none => exact h
  | some ch => exact ⟨h.1, h.2⟩

lemma channelOp_good {s : Sys} (name : String) (h : GoodSock s) :
    GoodSock (channelOp name s).1 := by
  unfold channelOp
  cases hc : registryLookup s.channels name with
  | none => exact ⟨h.1, h.2⟩
  | some cid => exact h

lemma reconnectTimerFires_good {s : Sys} (h : GoodSock s) :
    GoodSock (reconnectTimerFires s) := by
  unfold reconnectTimerFires
  split
  · exact connect_good ⟨h.1, h.2⟩
  · exact h

lemma doAction_good (a : Action) {s : Sys} (h : GoodSock s) : GoodSock (doAction a s) := by
  cases a with
  | getChannel name => exact channelOp_good name h
  | subscribeCall cid => exact chanSubscribe_good cid h
  | unsubscribeCall cid => exact chanUnsubscribe_good cid h
  | onCall cid ev hd => exact chanOn_good cid ev hd h
  | connectCall => exact connect_good h
  | disconnectCall => exact disconnect_good h
  | wsOpen => exact onOpen_good h
  | wsClose => exact handleDisconnect_good h
  | wsError => exact h
  | reconnectFire => exact reconnectTimerFires_good h
  | heartbeatFire => exact goodSock_of_sendOnly h (heartbeatTimerFires_sendOnly s)

lemma run_good (acts : List Action) {s : Sys} (h : GoodSock s) : GoodSock (run acts s) := by
  induction acts generalizing s with
  | nil => exact h
  | cons a rest ih => exact ih (doAction_good a h)

lemma initSys_good (sends ctors : List Bool) : GoodSock (initSys sends ctors) :=
  ⟨Or.inr (Or.inr rfl), rfl⟩

lemma sendOnly_reconnectAttempts {s t : Sys} (h : SendOnly s t) :
    t.reconnectAttempts = s.reconnectAttempts :=
  h.2.2.2.2.2.2.1

lemma connect_reconnectAttempts (s : Sys) :
    (connect s).reconnectAttempts = s.reconnectAttempts := by
  unfold connect
  split
  · rfl
  · split
    · rfl
    · exact (handleDisconnect_fields _).2.2

lemma disconnect_fields (s : Sys) :
    (disconnect s).connectionState = ConnectionState.DISCONNECTED ∧
    (disconnect s).heartbeatOn = false ∧
    (disconnect s).ws = none := by
  unfold disconnect
  cases s.ws
  · exact ⟨rfl, rfl, rfl⟩
  · exact ⟨rfl, rfl, rfl⟩

lemma handleDisconnect_of_idle {t : Sys}
    (h1 : t.connectionState = ConnectionState.DISCONNECTED)
    (h2 : t.heartbeatOn = false) (h3 : t.ws = none) :
    handleDisconnect t = t := by
  unfold handleDisconnect
  rw [if_neg (by simp [h1])]
  cases t
  dsimp only at h2 h3 ⊢
  rw [h2, h3]

lemma runHandlerLoop_ids (hs : List Handler) : runHandlerLoop hs = hs.map Handler.id := by
  induction hs with
  | nil => rfl
  | cons h rest ih =>
    unfold runHandlerLoop
    split <;> simp [ih]

lemma sendAll_all_ok (ms : List Frame) (s : Sys)
    (h1 : s.connectionState = ConnectionState.CONNECTED)
    (h2 : s.ws ≠ none) (h3 : s.sendOutcomes = []) :
    (sendAll ms s).sent = s.sent ++ ms ∧
    (sendAll ms s).messageQueue = s.messageQueue ∧
    (sendAll ms s).connectionState = s.connectionState ∧
    (sendAll ms s).ws = s.ws ∧
    (sendAll ms s).sendOutcomes = [] := by
  induction ms generalizing s with
  | nil =>
    exact ⟨by simp [sendAll], rfl, rfl, rfl, h3⟩
  | cons m rest ih =>
    have hsend : sendMessage m s =
        { s with sent := s.sent ++ [m], sendOutcomes := [] } := by
      unfold sendMessage
      rw [if_neg (by simp [h1, h2]), if_pos (by simp [h3])]
      rw [h3]
      rfl
    simp only [sendAll]
    rw [hsend]
    obtain ⟨g1, g2, g3, g4, g5⟩ := ih { s with sent := s.sent ++ [m], sendOutcomes := [] }
      h1 h2 rfl
    refine ⟨?_, g2, g3, g4, g5⟩
    rw [g1]
    simp

lemma handleChannelUnsubscribe_single (t : Sys) (nm : String) (cid : Nat)
    (hreg : t.channels = [(nm, cid)]) :
    handleChannelUnsubscribe nm t = disconnect { t with channels := [] } := by
  unfold handleChannelUnsubscribe
  rw [hreg]
  simp

/-- Claim C1 counterexample: in the lazy-connect scenario the code
transmits TWO subscribe frames for the channel, not one. Concretely,
creating channel a, calling subscribe twice while DISCONNECTED and then
delivering the socket open event yields two subscribe frames on the
wire (one from the queue flush, one from the resubscribe step), so the
total is not one as the claim states. -/
theorem claim1_counterexample :
    lazyOpened.sent.count (Frame.subscribeFrame "a") = 2 ∧
    lazyOpened.sent.count (Frame.subscribeFrame "a") ≠ 1 := by
  constructor
  · decide
  · decide

/-- Claim C1, amended: calling subscribe on an already subscribed
Channel is a complete no-op (so two successive subscribe calls hand
exactly one subscribe frame to the send path); however, when the
channel subscribes while the manager is DISCONNECTED and the connection
then opens, two subscribe frames are transmitted for that channel: the
queued one flushed by flushMessageQueue and a second one emitted by
resubscribeChannels. -/
theorem claim1_subscribe_idempotent (s : Sys) (cid : Nat) (ch : RealtimeChannelState)
    (hch : lookupChan s.chanObjs cid = some ch) (hsub : ch.subscribed = true) :
    chanSubscribe cid s = s ∧
    lazyOpened.sent.count (Frame.subscribeFrame "a") = 2 := by
  constructor
  · unfold chanSubscribe
    rw [hch]
    simp [hsub]
  · decide

/-- Claim C1 witness: the amended theorem applied to the concrete state
reached by one lazy subscribe call, whose channel object 0 is
subscribed; the second subscribe call leaves the state unchanged. -/
theorem claim1_witness :
    lookupChan lazySub.chanObjs 0 =
      some { name := "a", subscribed := true, handlers := [] } ∧
    chanSubscribe 0 lazySub = lazySub :=
  ⟨by decide,
   (claim1_subscribe_idempotent lazySub 0
      { name := "a", subscribed := true, handlers := [] } (by decide) rfl).1⟩

/-- Claim C2 counterexample: after disconnect the state is DISCONNECTED
and the registry is empty, but a Channel object obtained before the
disconnect still reports subscribed = true and still holds its handler
map, contradicting the claim that every previously obtained Channel has
an empty handler map and isSubscribed false. -/
theorem claim2_counterexample :
    demoAfterDisconnect.connectionState = ConnectionState.DISCONNECTED ∧
    demoAfterDisconnect.channels = [] ∧
    (lookupChan demoAfterDisconnect.chanObjs 0).map RealtimeChannelState.subscribed =
      some true ∧
    (lookupChan demoAfterDisconnect.chanObjs 0).map
      (fun ch => ch.handlers.length) = some 1 := by
  refine ⟨?_, ?_, ?_, ?_⟩ <;> decide

/-- Claim C2, amended: after disconnect the connection state is
DISCONNECTED, the channel registry is empty and the outbound queue is
empty, and the heartbeat and reconnect timers are stopped; but the
Channel objects previously obtained from the channel method are not
touched: their handler maps and subscribed flags keep their prior
values. -/
theorem claim2_disconnect_state (s : Sys) :
    (disconnect s).connectionState = ConnectionState.DISCONNECTED ∧
    (disconnect s).channels = [] ∧
    (disconnect s).messageQueue = [] ∧
    (disconnect s).chanObjs = s.chanObjs ∧
    (disconnect s).heartbeatOn = false ∧
    (disconnect s).reconnectPending = false := by
  unfold disconnect
  cases s.ws
  · exact ⟨rfl, rfl, rfl, rfl, rfl, rfl⟩
  · exact ⟨rfl, rfl, rfl, rfl, rfl, rfl⟩

/-- Claim C3: along every sequence of channel calls, connect or
disconnect calls, transport events and timer firings, started from a
fresh client with arbitrary transmission and constructor outcomes, the
manager never constructs a socket while it still holds a handle
(badCreations stays zero), and whenever the state is neither CONNECTED
nor CONNECTING the single handle slot is empty; the handle slot itself
holds at most one socket by construction. -/
theorem claim3_single_socket (acts : List Action) (sends ctors : List Bool) :
    GoodSock (run acts (initSys sends ctors)) ∧
    (run acts (initSys sends ctors)).badCreations = 0 := by
  have h := run_good acts (initSys_good sends ctors)
  exact ⟨h, h.2⟩

/-- Claim C4: the reconnect delay after n consecutive failures is
min of 1000 times 2 to the n and 30000, the resulting sequence starts
1000, 2000, 4000, 8000, 16000, 30000, 30000, is monotonically
non-decreasing and capped at 30000; the attempt counter starts at 0, is
incremented when the reconnect timer fires, and is reset to 0 by the
socket open callback; arming the timer records exactly the delay for
the current attempt count. -/
theorem claim4_backoff :
    (∀ n, reconnectDelay n = min (1000 * 2 ^ n) 30000) ∧
    (∀ n, reconnectDelay n ≤ reconnectDelay (n + 1)) ∧
    (∀ n, reconnectDelay n ≤ 30000) ∧
    ([reconnectDelay 0, reconnectDelay 1, reconnectDelay 2, reconnectDelay 3,
      reconnectDelay 4, reconnectDelay 5, reconnectDelay 6] =
      [1000, 2000, 4000, 8000, 16000, 30000, 30000]) ∧
    (∀ sends ctors, (initSys sends ctors).reconnectAttempts = 0) ∧
    (∀ s : Sys, (reconnectTimerFires { s with reconnectPending := true }).reconnectAttempts =
      s.reconnectAttempts + 1) ∧
    (∀ s : Sys, (onOpen s).reconnectAttempts = 0) ∧
    (∀ s : Sys, (scheduleReconnect { s with reconnectPending := false }).scheduledDelays =
      s.scheduledDelays ++ [reconnectDelay s.reconnectAttempts]) := by
  refine ⟨fun n => rfl, ?_, ?_, by decide, fun _ _ => rfl, ?_, ?_, ?_⟩
  · intro n
    have h : RECONNECT_DELAY_MS * RECONNECT_BACKOFF_MULTIPLIER ^ n ≤
        RECONNECT_DELAY_MS * RECONNECT_BACKOFF_MULTIPLIER ^ (n + 1) :=
      Nat.mul_le_mul_left _ (Nat.pow_le_pow_right (by decide) (Nat.le_succ n))
    exact min_le_min h le_rfl
  · intro n
    exact min_le_right _ _
  · intro s
    show (connect { s with reconnectPending := false,
                           reconnectAttempts := s.reconnectAttempts + 1 }).reconnectAttempts =
      s.reconnectAttempts + 1
    rw [connect_reconnectAttempts]
  · intro s
    unfold onOpen
    have h1 := flushMessageQueue_sendOnly
      { s with connectionState := ConnectionState.CONNECTED,
               reconnectAttempts := 0, heartbeatOn := true }
    have h2 := resubscribeChannels_sendOnly (flushMessageQueue
      { s with connectionState := ConnectionState.CONNECTED,
               reconnectAttempts := 0, heartbeatOn := true })
    rw [sendOnly_reconnectAttempts h2, sendOnly_reconnectAttempts h1]
  · intro s
    unfold scheduleReconnect
    simp

/-- Claim C5: after disconnect is called while the manager is
CONNECTING, any completion event the pending socket can still deliver
(close or error, per the transport contract modelled by
PossibleAfterClientClose) leaves the state unchanged: the manager stays
DISCONNECTED, no heartbeat timer runs, no reconnect timer is pending
and no frame is transmitted. -/
theorem claim5_disconnect_while_connecting (s : Sys) (a : Action)
    (_hs : s.connectionState = ConnectionState.CONNECTING)
    (ha : PossibleAfterClientClose a) :
    doAction a (disconnect s) = disconnect s ∧
    (doAction a (disconnect s)).connectionState = ConnectionState.DISCONNECTED ∧
    (doAction a (disconnect s)).heartbeatOn = false ∧
    (doAction a (disconnect s)).reconnectPending = false ∧
    (doAction a (disconnect s)).sent = (disconnect s).sent := by
  obtain ⟨d1, d2, d3⟩ := disconnect_fields s
  have hpend : (disconnect s).reconnectPending = false := by
    unfold disconnect
    cases s.ws
    · rfl
    · rfl
  have hnoop : doAction a (disconnect s) = disconnect s := by
    rcases ha with rfl | rfl
    · exact handleDisconnect_of_idle d1 d2 d3
    · rfl
  rw [hnoop]
  exact ⟨rfl, d1, d2, hpend, rfl⟩

/-- Claim C5 witness: the theorem applied to the concrete CONNECTING
state reached by a lazy subscribe, with the close completion event. -/
theorem claim5_witness :
    lazySub.connectionState = ConnectionState.CONNECTING ∧
    doAction Action.wsClose (disconnect lazySub) = disconnect lazySub :=
  ⟨by decide,
   (claim5_disconnect_while_connecting lazySub Action.wsClose (by decide)
      (Or.inl rfl)).1⟩

/-- Claim C6: sendMessage never drops a frame. When the state is
CONNECTED and a socket handle exists the frame is transmitted if the
transmission succeeds and is appended to the queue if it throws; in any
state other than CONNECTED, or without a handle, the frame is appended
to the queue unconditionally; and in every case the frame ends up
either transmitted or enqueued. -/
theorem claim6_sendMessage_no_drop (s : Sys) (m : Frame) :
    ((s.connectionState = ConnectionState.CONNECTED ∧ s.ws ≠ none ∧
        s.sendOutcomes.headD true = true) →
      (sendMessage m s).sent = s.sent ++ [m] ∧
      (sendMessage m s).messageQueue = s.messageQueue) ∧
    ((s.connectionState = ConnectionState.CONNECTED ∧ s.ws ≠ none ∧
        s.sendOutcomes.headD true = false) →
      (sendMessage m s).sent = s.sent ∧
      (sendMessage m s).messageQueue = s.messageQueue ++ [m]) ∧
    ((s.connectionState ≠ ConnectionState.CONNECTED ∨ s.ws = none) →
      (sendMessage m s).sent = s.sent ∧
      (sendMessage m s).messageQueue = s.messageQueue ++ [m]) ∧
    (((sendMessage m s).sent = s.sent ++ [m] ∧
        (sendMessage m s).messageQueue = s.messageQueue) ∨
     ((sendMessage m s).sent = s.sent ∧
        (sendMessage m s).messageQueue = s.messageQueue ++ [m])) := by
  unfold sendMessage
  split
  · rename_i hc
    refine ⟨?_, ?_, ?_, Or.inr ⟨rfl, rfl⟩⟩
    · rintro ⟨h1, h2, _⟩
      rcases hc with hc | hc
      · exact absurd h1 hc
      · exact absurd hc h2
    · rintro ⟨h1, h2, _⟩
      rcases hc with hc | hc
      · exact absurd h1 hc
      · exact absurd hc h2
    · intro _
      exact ⟨rfl, rfl⟩
  · rename_i hc
    split
    · rename_i hok
      refine ⟨?_, ?_, ?_, Or.inl ⟨rfl, rfl⟩⟩
      · intro _
        exact ⟨rfl, rfl⟩
      · rintro ⟨_, _, h3⟩
        rw [hok] at h3
        exact absurd h3 (by simp)
      · intro h
        exact absurd h hc
    · rename_i hok
      refine ⟨?_, ?_, ?_, Or.inr ⟨rfl, rfl⟩⟩
      · rintro ⟨_, _, h3⟩
        exact absurd h3 hok
      · intro _
        exact ⟨rfl, rfl⟩
      · intro h
        exact absurd h hc

/-- Claim C6 witness: on a connected client with a successful
transmission the heartbeat frame goes straight to the wire. -/
theorem claim6_witness :
    sampleConnected.connectionState = ConnectionState.CONNECTED ∧
    (sendMessage Frame.heartbeatFrame sampleConnected).sent =
      sampleConnected.sent ++ [Frame.heartbeatFrame] :=
  ⟨rfl,
   ((claim6_sendMessage_no_drop sampleConnected Frame.heartbeatFrame).1
      ⟨rfl, by decide, rfl⟩).1⟩

/-- Claim C7: flushing the queue on a connected client with a working
transport transmits exactly the queued frames, appended to the wire
trace in their enqueue order (strict FIFO), and leaves the queue empty. -/
theorem claim7_flush_fifo (s : Sys)
    (h1 : s.connectionState = ConnectionState.CONNECTED)
    (h2 : s.ws ≠ none) (h3 : s.sendOutcomes = []) :
    (flushMessageQueue s).sent = s.sent ++ s.messageQueue ∧
    (flushMessageQueue s).messageQueue = [] := by
  unfold flushMessageQueue
  obtain ⟨g1, g2, _, _, _⟩ :=
    sendAll_all_ok s.messageQueue { s with messageQueue := [] } h1 h2 h3
  exact ⟨g1, g2⟩

/-- Claim C7 witness: three frames queued in order X, Y, Z on a
connected client are transmitted in exactly that order and the queue is
left empty. -/
theorem claim7_witness :
    queuedThree.connectionState = ConnectionState.CONNECTED ∧
    (flushMessageQueue queuedThree).sent =
      [Frame.subscribeFrame "x", Frame.heartbeatFrame, Frame.unsubscribeFrame "y"] ∧
    (flushMessageQueue queuedThree).messageQueue = [] := by
  have h := claim7_flush_fifo queuedThree rfl (by decide) rfl
  exact ⟨rfl, h.1, h.2⟩

/-- Claim C8: dispatch invokes every handler registered for the payload
type and then every wildcard handler, in registration order, whatever
the throwing behaviour of each handler is: a throwing handler is caught
inside the loop, so it never prevents the remaining handlers of either
set from being invoked and never propagates outward (dispatch is a
total function of the channel state). -/
theorem claim8_dispatch_isolation (ch : RealtimeChannelState) (p : RealtimePayload) :
    dispatch ch p =
      ((handlersGet ch.handlers p.type).getD []).map Handler.id ++
      ((handlersGet ch.handlers RealtimeEventType.WILDCARD).getD []).map Handler.id := by
  cases h1 : handlersGet ch.handlers p.type <;>
    cases h2 : handlersGet ch.handlers RealtimeEventType.WILDCARD <;>
      simp [dispatch, h1, h2, runHandlerLoop_ids]

/-- Claim C9: when the registry holds exactly one channel, that channel
is subscribed and a socket handle is held, unsubscribing it empties the
registry, moves the manager to DISCONNECTED, closes the held socket and
releases the handle. -/
theorem claim9_last_unsubscribe_teardown (s : Sys) (nm : String) (cid k : Nat)
    (ch : RealtimeChannelState)
    (hreg : s.channels = [(nm, cid)])
    (hch : lookupChan s.chanObjs cid = some ch)
    (hnm : ch.name = nm)
    (hsub : ch.subscribed = true)
    (hws : s.ws = some k) :
    (chanUnsubscribe cid s).channels = [] ∧
    (chanUnsubscribe cid s).connectionState = ConnectionState.DISCONNECTED ∧
    (chanUnsubscribe cid s).ws = none ∧
    (chanUnsubscribe cid s).closedSocks = s.closedSocks ++ [k] := by
  obtain ⟨e1, e2, e3, e4, e5, e6, e7, e8, e9, e10, e11, e12⟩ :=
    sendMessage_sendOnly (Frame.unsubscribeFrame ch.name) s
  unfold chanUnsubscribe
  rw [hch]
  dsimp only
  rw [hsub]
  simp only [not_true, if_false, Bool.true_eq_false, reduceIte]
  rw [handleChannelUnsubscribe_single _ ch.name cid (by rw [e4, hreg, hnm])]
  unfold disconnect
  dsimp only
  rw [e2, hws]
  dsimp only
  rw [e10]
  exact ⟨rfl, rfl, rfl, rfl⟩

/-- Claim C9 witness: the theorem applied to the connected client whose
registry holds exactly the subscribed channel a on socket 0. -/
theorem claim9_witness :
    connectedOne.channels = [("a", 0)] ∧
    (chanUnsubscribe 0 connectedOne).channels = [] ∧
    (chanUnsubscribe 0 connectedOne).connectionState = ConnectionState.DISCONNECTED ∧
    (chanUnsubscribe 0 connectedOne).closedSocks = connectedOne.closedSocks ++ [0] := by
  have h := claim9_last_unsubscribe_teardown connectedOne "a" 0 0
    { name := "a", subscribed := true, handlers := [] }
    (by decide) (by decide) rfl rfl (by decide)
  exact ⟨by decide, h.1, h.2.1, h.2.2.2⟩

/-- Claim C10: unsubscribing a channel that was never subscribed is a
complete no-op: the state is unchanged, so no frame is transmitted or
enqueued, the handler map is untouched and the channel stays in the
registry, which therefore stays non-empty and never triggers the
empty-registry teardown on account of such a channel. -/
theorem claim10_unsubscribe_never_subscribed (s : Sys) (cid : Nat)
    (ch : RealtimeChannelState)
    (hch : lookupChan s.chanObjs cid = some ch)
    (hsub : ch.subscribed = false) :
    chanUnsubscribe cid s = s ∧
    (chanUnsubscribe cid s).channels = s.channels ∧
    (chanUnsubscribe cid s).sent = s.sent ∧
    (chanUnsubscribe cid s).messageQueue = s.messageQueue ∧
    (chanUnsubscribe cid s).chanObjs = s.chanObjs := by
  have h : chanUnsubscribe cid s = s := by
    unfold chanUnsubscribe
    rw [hch]
    simp [hsub]
  rw [h]
  exact ⟨rfl, rfl, rfl, rfl, rfl⟩

/-- Claim C10 witness: the theorem applied to the fresh client whose
registered channel a was never subscribed. -/
theorem claim10_witness :
    (lookupChan chanA0.chanObjs 0).map RealtimeChannelState.subscribed = some false ∧
    chanUnsubscribe 0 chanA0 = chanA0 :=
  ⟨by decide,
   (claim10_unsubscribe_never_subscribed chanA0 0
      { name := "a", subscribed := false, handlers := [] } (by decide) rfl).1⟩

end AeroDB
